import Mathlib

/-!
Verification of the frame-scheduling core of the CG-PROJECT repository
(src/main.js): the Loop class (per-frame scheduler driven through
renderer.setAnimationLoop), the module-level clock, the Resizer class,
the createControls and createHelicopter factories, the World composition
root and the top-level main entry point.

The JavaScript code is shallowly embedded: wall-clock timestamps and
surface dimensions are rational numbers, updatables are identified by
natural-number ids, and each frame-callback execution is recorded as a
trace of events (tick calls with their delta, render calls).
-/

/-- State of the module-level clock (src/main.js line 172,
new THREE.Clock()).  The external three.js Clock with autoStart true
keeps a running flag and the time of the previous sample (oldTime);
it starts lazily on the first getDelta call. -/
structure ClockState where
  running : Bool
  oldTime : ℚ
deriving DecidableEq

/-- Embeds getDelta of the external three.js Clock (autoStart true),
as called at src/main.js line 183: if the clock is not yet running it
starts (recording now as oldTime) and returns 0; otherwise it returns
now - oldTime and updates oldTime to now. -/
def Clock.getDelta (c : ClockState) (now : ℚ) : ℚ × ClockState :=
  if c.running then
    (now - c.oldTime, ⟨true, now⟩)
  else
    (0, ⟨true, now⟩)

/-- Observable events produced while a frame callback executes:
a tick call on the updatable with id uid receiving delta, or a
render call (src/main.js lines 184-186 and 192). -/
inductive Event where
  | tickCall (uid : Nat) (delta : ℚ)
  | renderCall
deriving DecidableEq

/-- The for-of body of Loop.tick (src/main.js lines 184-186): invoke
tick(delta) on each updatable in order.  The fails predicate says which
updatables raise when ticked; a raising tick still happens (its event is
recorded) but aborts the iteration, and the Bool result records whether
the loop ran to completion (true) or an error escaped (false).  Nothing
in src/main.js catches such an error. -/
def runTicks (fails : Nat → Bool) (us : List Nat) (delta : ℚ) :
    List Event × Bool :=
  match us with
  | [] => ([], true)
  | u :: rest =>
    if fails u then
      ([Event.tickCall u delta], false)
    else
      let r := runTicks fails rest delta
      (Event.tickCall u delta :: r.1, r.2)

/-- One execution of the callback installed by Loop.start (src/main.js
lines 190-193): run Loop.tick, which samples the clock once and ticks
every updatable with that delta (lines 182-187), then - only if no tick
raised - issue one render call (line 192).  Returns the events produced,
the new clock state, and whether the callback returned normally. -/
def frameCallback (fails : Nat → Bool) (us : List Nat) (c : ClockState)
    (now : ℚ) : List Event × ClockState × Bool :=
  let dc := Clock.getDelta c now
  let tb := runTicks fails us dc.1
  (tb.1 ++ (if tb.2 then [Event.renderCall] else []), dc.2, tb.2)

/-- Operations driving the scheduler: a registration
(loop.updatables.push, src/main.js lines 148-149), Loop.start and
Loop.stop (lines 189-198), and a host frame at wall-clock time now.
The start operation carries the wall-clock time at which it is called;
Loop.start does not read the clock, so the time is unused by step. -/
inductive Op where
  | register (uid : Nat)
  | start (now : ℚ)
  | stop
  | frame (now : ℚ)

/-- Combined state of Loop, the module clock and the animation slot of
the renderer.  loopInstalled models whether setAnimationLoop holds a
non-null callback, isAnimating and hasRequest model the isAnimating
flag and the pending animation-frame request of the renderer internals
that drive the installed callback once per host frame.  events is the
accumulated trace. -/
structure SysState where
  updatables : List Nat
  loopInstalled : Bool
  isAnimating : Bool
  hasRequest : Bool
  clock : ClockState
  events : List Event
deriving DecidableEq

/-- Freshly constructed World: empty updatables, no callback installed,
clock constructed but not yet running (src/main.js lines 172-180). -/
def initState : SysState :=
  { updatables := []
    loopInstalled := false
    isAnimating := false
    hasRequest := false
    clock := ⟨false, 0⟩
    events := [] }

/-- One transition.  register appends (push).  start installs the
callback via setAnimationLoop; the renderer animation driver only arms
a new frame request when not already animating, so a second start is a
no-op on the driving state.  stop passes null to setAnimationLoop,
which cancels the pending request and clears isAnimating.  frame runs
the installed callback when a request is pending; on normal return the
driver re-arms the next request, while an escaping error leaves no
request armed. -/
def step (fails : Nat → Bool) (s : SysState) (op : Op) : SysState :=
  match op with
  | Op.register u => { s with updatables := s.updatables ++ [u] }
  | Op.start _ =>
    if s.isAnimating then
      { s with loopInstalled := true }
    else
      { s with loopInstalled := true, isAnimating := true, hasRequest := true }
  | Op.stop =>
    { s with loopInstalled := false, isAnimating := false, hasRequest := false }
  | Op.frame now =>
    if s.hasRequest then
      let r := frameCallback fails s.updatables s.clock now
      { s with clock := r.2.1, events := s.events ++ r.1, hasRequest := r.2.2 }
    else s

/-- Run a sequence of operations from a state. -/
def run (fails : Nat → Bool) (s : SysState) (ops : List Op) : SysState :=
  ops.foldl (step fails) s

/-- No updatable raises: every tick in src/main.js (controls update,
rotor rotation) is total. -/
def noFail : Nat → Bool := fun _ => false

/-- The events one fully successful frame produces for updatable list
us at delta d: each tick in registration order, then one render. -/
def frameBlock (us : List Nat) (d : ℚ) : List Event :=
  us.map (fun u => Event.tickCall u d) ++ [Event.renderCall]

/-- The deltas the clock hands out over successive frames at times ts. -/
def deltasFrom (c : ClockState) (ts : List ℚ) : List ℚ :=
  match ts with
  | [] => []
  | t :: rest =>
    let dc := Clock.getDelta c t
    dc.1 :: deltasFrom dc.2 rest

/-- Clock state after sampling at each time in ts. -/
def clockAfter (c : ClockState) (ts : List ℚ) : ClockState :=
  ts.foldl (fun c t => (Clock.getDelta c t).2) c

/-- Successive differences: pairDeltas prev [t1, t2, ...] =
[t1 - prev, t2 - t1, ...]. -/
def pairDeltas (prev : ℚ) : List ℚ → List ℚ
  | [] => []
  | t :: rest => (t - prev) :: pairDeltas t rest

/-- How many tick calls updatable u receives in a trace. -/
def tickCount (u : Nat) (evs : List Event) : Nat :=
  evs.countP (fun e => match e with
    | Event.tickCall v _ => v == u
    | Event.renderCall => false)

/-- How many render calls a trace contains. -/
def renderCount (evs : List Event) : Nat :=
  evs.countP (fun e => match e with
    | Event.tickCall _ _ => false
    | Event.renderCall => true)

/-!  Resizer (src/main.js lines 201-222). -/

/-- Host container: clientWidth and clientHeight. -/
structure Container where
  clientWidth : ℚ
  clientHeight : ℚ
deriving DecidableEq

/-- The camera fields Resizer touches: the mutable aspect, and the
aspect baked into the projection matrix by updateProjectionMatrix. -/
structure CameraState where
  aspect : ℚ
  projectionAspect : ℚ
deriving DecidableEq

/-- The renderer output fields Resizer touches: setSize dimensions and
setPixelRatio value. -/
structure RendererState where
  width : ℚ
  height : ℚ
  pixelRatio : ℚ
deriving DecidableEq

/-- Resizer.setSize (src/main.js lines 216-221): set camera.aspect to
clientWidth / clientHeight, call updateProjectionMatrix, set the
renderer size to the container dimensions and the pixel ratio to the
device pixel ratio, all in one synchronous pass. -/
def Resizer.setSize (container : Container) (cam : CameraState)
    (r : RendererState) (devicePixelRatio : ℚ) :
    CameraState × RendererState :=
  let cam1 := { cam with aspect := container.clientWidth / container.clientHeight }
  let cam2 := { cam1 with projectionAspect := cam1.aspect }
  let r1 := { r with width := container.clientWidth, height := container.clientHeight }
  let r2 := { r1 with pixelRatio := devicePixelRatio }
  (cam2, r2)

/-- The synchronization pass the Resizer constructor performs
immediately (src/main.js line 203). -/
def Resizer.construct (container : Container) (cam : CameraState)
    (r : RendererState) (devicePixelRatio : ℚ) :
    CameraState × RendererState :=
  Resizer.setSize container cam r devicePixelRatio

/-- The synchronization pass the resize listener performs on every
host resize notification (src/main.js lines 206-209), using the
container dimensions and device pixel ratio current at event time;
the optional post-resize callback runs after it and does not touch
camera or renderer. -/
def Resizer.handleResize (container : Container) (cam : CameraState)
    (r : RendererState) (devicePixelRatio : ℚ) :
    CameraState × RendererState :=
  Resizer.setSize container cam r devicePixelRatio

/-!  createControls (src/main.js lines 64-91). -/

/-- A partial controlSettings argument: a missing field is an absent
key of the JavaScript object, so the spread of the defaults wins. -/
structure ControlSettings where
  enabled : Option Bool
  enableDamping : Option Bool
  autoRotate : Option Bool
  enablePan : Option Bool
  enableZoom : Option Bool
deriving DecidableEq

/-- Result of spreading defaultControlSettings then the caller
settings (src/main.js lines 65-76): per-field, the caller value when
present, else the default (enabled true, enableDamping true,
autoRotate false, enablePan true, enableZoom true). -/
structure MergedControlSettings where
  enabled : Bool
  enableDamping : Bool
  autoRotate : Bool
  enablePan : Bool
  enableZoom : Bool
deriving DecidableEq

/-- The spread merge at src/main.js lines 73-76. -/
def mergeControlSettings (cs : ControlSettings) : MergedControlSettings :=
  { enabled := cs.enabled.getD true
    enableDamping := cs.enableDamping.getD true
    autoRotate := cs.autoRotate.getD false
    enablePan := cs.enablePan.getD true
    enableZoom := cs.enableZoom.getD true }

/-- The flag fields of an OrbitControls object plus a count of update
calls. -/
structure OrbitControlsState where
  enableDamping : Bool
  autoRotate : Bool
  enabled : Bool
  enablePan : Bool
  enableZoom : Bool
  updateCalls : Nat
deriving DecidableEq

/-- A freshly constructed external OrbitControls object: library
defaults enableDamping false, autoRotate false, enabled true,
enablePan true, enableZoom true; no update call yet. -/
def newOrbitControls : OrbitControlsState :=
  { enableDamping := false
    autoRotate := false
    enabled := true
    enablePan := true
    enableZoom := true
    updateCalls := 0 }

/-- createControls (src/main.js lines 64-91): merge the settings,
construct OrbitControls, assign only enableDamping, autoRotate,
enabled and enablePan from the merged settings (lines 79-82), and
call update once (line 83).  The merged enableZoom is never read. -/
def createControls (cs : ControlSettings) : OrbitControlsState :=
  let m := mergeControlSettings cs
  let c0 := newOrbitControls
  { c0 with
    enableDamping := m.enableDamping
    autoRotate := m.autoRotate
    enabled := m.enabled
    enablePan := m.enablePan
    updateCalls := c0.updateCalls + 1 }

/-!  createHelicopter rotor animation (src/main.js lines 117-129).
The rotation is exact real arithmetic, so these definitions live on ℝ
and are noncomputable (the rate involves pi). -/

/-- degToRad of the external three.js MathUtils: degrees times
pi / 180. -/
noncomputable def degToRad (degrees : ℝ) : ℝ :=
  degrees * (Real.pi / 180)

/-- radiansPerSecond = degToRad(180) (src/main.js line 123). -/
noncomputable def radiansPerSecond : ℝ :=
  degToRad 180

/-- The tick closure returned by createHelicopter (src/main.js lines
126-128): rotor.rotation.z += radiansPerSecond * delta, as a function
of the current z rotation. -/
noncomputable def heliTick (delta : ℝ) (rotZ : ℝ) : ℝ :=
  rotZ + radiansPerSecond * delta

/-!  World.init and main (src/main.js lines 132-236). -/

/-- A 3D point. -/
structure Vec3 where
  x : ℚ
  y : ℚ
  z : ℚ
deriving DecidableEq

/-- Position of the helicopter group: createHelicopter never moves the
group itself (only children are positioned), so it keeps the default
group position (0, 0, 0) (src/main.js lines 93-130). -/
def heliPosition : Vec3 := ⟨0, 0, 0⟩

/-- Default orbit target of a freshly constructed external
OrbitControls object: the origin. -/
def orbitControlsDefaultTarget : Vec3 := ⟨0, 0, 0⟩

/-- Milestones of the startup sequence run by main
(src/main.js lines 224-232): World construction, the begin and end of
the awaited World.init call, the single target.copy assignment inside
init (line 160), and the world.start call. -/
inductive MainEvent where
  | constructWorld
  | initBegin
  | setTarget (pos : Vec3)
  | initEnd
  | startCall
deriving DecidableEq

/-- The body of World.init (src/main.js lines 159-161) as a trace:
init begins, copies the helicopter group position into the controls
orbit target exactly once, and resolves. -/
def World.initTrace : List MainEvent :=
  [MainEvent.initBegin, MainEvent.setTarget heliPosition, MainEvent.initEnd]

/-- Effect of World.init on the controls orbit target. -/
def World.initTarget (_target : Vec3) : Vec3 :=
  heliPosition

/-- The full startup trace of main (src/main.js lines 224-232):
construct the World, await world.init() to completion, then call
world.start(). -/
def mainTrace : List MainEvent :=
  [MainEvent.constructWorld] ++ World.initTrace ++ [MainEvent.startCall]

/-- The controls orbit target at the moment world.start() is first
invoked: the value World.init left, starting from the OrbitControls
default. -/
def targetAtStart : Vec3 :=
  World.initTarget orbitControlsDefaultTarget

/-!  Helper lemmas about runs and traces. -/

lemma runTicks_noFail (us : List Nat) (d : ℚ) :
    runTicks noFail us d = (us.map (fun u => Event.tickCall u d), true) := by
  induction us with
  | nil => rfl
  | cons u us ih => simp [runTicks, noFail, ih]

lemma frameCallback_noFail (us : List Nat) (c : ClockState) (now : ℚ) :
    frameCallback noFail us c now =
      (frameBlock us (Clock.getDelta c now).1, (Clock.getDelta c now).2, true) := by
  simp [frameCallback, runTicks_noFail, frameBlock]

lemma run_append (fails : Nat → Bool) (s : SysState) (a b : List Op) :
    run fails s (a ++ b) = run fails (run fails s a) b := by
  simp [run, List.foldl_append]

lemma run_registers (fails : Nat → Bool) (us : List Nat) :
    ∀ s : SysState, run fails s (us.map Op.register) =
      { s with updatables := s.updatables ++ us } := by
  induction us with
  | nil => intro s; simp [run]
  | cons u us ih =>
    intro s
    have h1 : run fails s ((u :: us).map Op.register)
        = run fails (step fails s (Op.register u)) (us.map Op.register) := rfl
    rw [h1]
    simp [step, ih, List.append_assoc]

lemma step_start_fresh (fails : Nat → Bool) (s : SysState) (t : ℚ)
    (h : s.isAnimating = false) :
    step fails s (Op.start t) =
      { s with loopInstalled := true, isAnimating := true, hasRequest := true } := by
  simp [step, h]

lemma step_frame_noFail (s : SysState) (t : ℚ) (h : s.hasRequest = true) :
    step noFail s (Op.frame t) =
      { s with clock := (Clock.getDelta s.clock t).2,
               events := s.events ++ frameBlock s.updatables (Clock.getDelta s.clock t).1,
               hasRequest := true } := by
  simp [step, h, frameCallback_noFail]

lemma clockAfter_cons (c : ClockState) (t : ℚ) (ts : List ℚ) :
    clockAfter c (t :: ts) = clockAfter (Clock.getDelta c t).2 ts := rfl

lemma deltasFrom_cons (c : ClockState) (t : ℚ) (ts : List ℚ) :
    deltasFrom c (t :: ts) =
      (Clock.getDelta c t).1 :: deltasFrom (Clock.getDelta c t).2 ts := rfl

lemma run_frames_noFail (ts : List ℚ) :
    ∀ s : SysState, s.hasRequest = true →
      run noFail s (ts.map Op.frame) =
        { s with clock := clockAfter s.clock ts,
                 events := s.events ++
                   ((deltasFrom s.clock ts).map (frameBlock s.updatables)).flatten,
                 hasRequest := true } := by
  induction ts with
  | nil =>
    intro s h
    cases s
    simp_all [run, clockAfter, deltasFrom]
  | cons t ts ih =>
    intro s h
    have h1 : run noFail s ((t :: ts).map Op.frame)
        = run noFail (step noFail s (Op.frame t)) (ts.map Op.frame) := rfl
    rw [h1, step_frame_noFail s t h, ih _ rfl]
    simp [clockAfter_cons, deltasFrom_cons, List.append_assoc]

lemma frameBlock_cons (v : Nat) (us : List Nat) (d : ℚ) :
    frameBlock (v :: us) d = Event.tickCall v d :: frameBlock us d := rfl

lemma tickCount_append (u : Nat) (a b : List Event) :
    tickCount u (a ++ b) = tickCount u a + tickCount u b := by
  simp [tickCount, List.countP_append]

lemma tickCount_frameBlock_zero (u : Nat) (us : List Nat) (d : ℚ)
    (hmem : u ∉ us) : tickCount u (frameBlock us d) = 0 := by
  induction us with
  | nil => rfl
  | cons v us ih =>
    rw [frameBlock_cons]
    have hvu : v ≠ u := fun h => hmem (h ▸ List.mem_cons_self v us)
    have hus : u ∉ us := fun h => hmem (List.mem_cons_of_mem v h)
    simp [tickCount, List.countP_cons, hvu] at ih ⊢
    exact ih hus

lemma tickCount_frameBlock_one (u : Nat) (us : List Nat) (d : ℚ)
    (hmem : u ∈ us) (hnd : us.Nodup) :
    tickCount u (frameBlock us d) = 1 := by
  induction us with
  | nil => cases hmem
  | cons v us ih =>
    rw [frameBlock_cons]
    rcases List.nodup_cons.mp hnd with ⟨hvn, hnd2⟩
    rcases List.mem_cons.mp hmem with hv | hu
    · subst hv
      have h0 := tickCount_frameBlock_zero u us d hvn
      simp [tickCount, List.countP_cons] at h0 ⊢
      simpa using h0
    · have hvu : v ≠ u := fun h => hvn (h ▸ hu)
      have h1 := ih hu hnd2
      simp [tickCount, List.countP_cons, hvu] at h1 ⊢
      simpa using h1

lemma tickCount_trace (u : Nat) (us : List Nat) (ds : List ℚ)
    (hmem : u ∈ us) (hnd : us.Nodup) :
    tickCount u ((ds.map (frameBlock us)).flatten) = ds.length := by
  induction ds with
  | nil => rfl
  | cons d ds ih =>
    simp only [List.map_cons, List.flatten_cons]
    rw [tickCount_append, tickCount_frameBlock_one u us d hmem hnd, ih]
    simp only [List.length_cons]
    omega

lemma renderCount_append (a b : List Event) :
    renderCount (a ++ b) = renderCount a + renderCount b := by
  simp [renderCount, List.countP_append]

lemma renderCount_tickList (l : List Nat) (d : ℚ) :
    renderCount (l.map (fun u => Event.tickCall u d)) = 0 := by
  simp [renderCount]

lemma renderCount_frameBlock (us : List Nat) (d : ℚ) :
    renderCount (frameBlock us d) = 1 := by
  have h := renderCount_tickList us d
  rw [frameBlock, renderCount_append, h]
  rfl

lemma renderCount_trace (us : List Nat) (ds : List ℚ) :
    renderCount ((ds.map (frameBlock us)).flatten) = ds.length := by
  induction ds with
  | nil => rfl
  | cons d ds ih =>
    simp only [List.map_cons, List.flatten_cons]
    rw [renderCount_append, renderCount_frameBlock, ih]
    simp only [List.length_cons]
    omega

lemma deltasFrom_running (prev : ℚ) (ts : List ℚ) :
    deltasFrom ⟨true, prev⟩ ts = pairDeltas prev ts := by
  induction ts generalizing prev with
  | nil => rfl
  | cons t ts ih => simp [deltasFrom, Clock.getDelta, pairDeltas, ih]

lemma deltasFrom_fresh (x : ℚ) (t : ℚ) (ts : List ℚ) :
    deltasFrom ⟨false, x⟩ (t :: ts) = 0 :: pairDeltas t ts := by
  simp [deltasFrom, Clock.getDelta, deltasFrom_running]

lemma deltasFrom_length (c : ClockState) (ts : List ℚ) :
    (deltasFrom c ts).length = ts.length := by
  induction ts generalizing c with
  | nil => rfl
  | cons t ts ih => simp [deltasFrom, ih]

lemma pairDeltas_nonneg (ts : List ℚ) :
    ∀ prev : ℚ, List.Chain (· ≤ ·) prev ts →
      ∀ d ∈ pairDeltas prev ts, 0 ≤ d := by
  induction ts with
  | nil =>
    intro prev _ d hd
    cases hd
  | cons t ts ih =>
    intro prev hch d hd
    rcases List.chain_cons.mp hch with ⟨hle, hch2⟩
    rcases List.mem_cons.mp hd with h1 | h2
    · subst h1
      linarith
    · exact ih t hch2 d h2

/-- The state reached by registering updatables us on a fresh World,
calling start at wall-clock time t0, and letting the host produce one
frame at each time in ts. -/
def scheduleRun (us : List Nat) (t0 : ℚ) (ts : List ℚ) : SysState :=
  run noFail initState (us.map Op.register ++ [Op.start t0] ++ ts.map Op.frame)

lemma run_single (fails : Nat → Bool) (s : SysState) (op : Op) :
    run fails s [op] = step fails s op := rfl

lemma scheduleRun_eq (us : List Nat) (t0 : ℚ) (ts : List ℚ) :
    scheduleRun us t0 ts =
      { updatables := us
        loopInstalled := true
        isAnimating := true
        hasRequest := true
        clock := clockAfter ⟨false, 0⟩ ts
        events := ((deltasFrom ⟨false, 0⟩ ts).map (frameBlock us)).flatten } := by
  unfold scheduleRun
  rw [run_append, run_append, run_registers, run_single]
  have hstep : step noFail { initState with updatables := initState.updatables ++ us }
      (Op.start t0)
      = { updatables := us
          loopInstalled := true
          isAnimating := true
          hasRequest := true
          clock := ⟨false, 0⟩
          events := [] } := by
    simp [step, initState]
  rw [hstep, run_frames_noFail _ _ rfl]
  simp

/-- C1: registering updatables u1...un and starting, then letting the
host invoke the frame callback N times, produces exactly the
concatenation of N frame blocks; each block ticks every registered
updatable once, in registration order, before the render that closes
the block, so the ticks of a frame run synchronously to completion
inside that frame callback; in particular every registered updatable
is ticked exactly N times. -/
theorem loop_ticks_in_order_each_frame (us : List Nat) (t0 : ℚ) (ts : List ℚ)
    (hnd : us.Nodup) :
    (scheduleRun us t0 ts).events =
      ((deltasFrom ⟨false, 0⟩ ts).map (frameBlock us)).flatten
    ∧ (∀ d : ℚ, frameBlock us d =
        us.map (fun u => Event.tickCall u d) ++ [Event.renderCall])
    ∧ ∀ u ∈ us, tickCount u (scheduleRun us t0 ts).events = ts.length := by
  refine ⟨by rw [scheduleRun_eq], fun d => rfl, ?_⟩
  intro u hmem
  rw [scheduleRun_eq]
  show tickCount u ((deltasFrom ⟨false, 0⟩ ts).map (frameBlock us)).flatten = ts.length
  rw [tickCount_trace u us _ hmem hnd, deltasFrom_length]

/-- Witness for C1 at a concrete input: updatables 1 and 2, start at
time 0, two frames at times 3 and 5. -/
theorem loop_ticks_in_order_each_frame_witness :
    ([1, 2] : List Nat).Nodup ∧
      ((scheduleRun [1, 2] 0 [3, 5]).events =
        ((deltasFrom ⟨false, 0⟩ [3, 5]).map (frameBlock [1, 2])).flatten
      ∧ (∀ d : ℚ, frameBlock [1, 2] d =
          [1, 2].map (fun u => Event.tickCall u d) ++ [Event.renderCall])
      ∧ ∀ u ∈ ([1, 2] : List Nat),
          tickCount u (scheduleRun [1, 2] 0 [3, 5]).events = [(3 : ℚ), 5].length) :=
  ⟨by decide, loop_ticks_in_order_each_frame [1, 2] 0 [3, 5] (by decide)⟩

/-- C4: in every frame-callback invocation all tick calls come before
the single render call of that frame: the trace is a concatenation of
blocks whose tick prefix contains no render call and which end in
exactly one render call, and the total number of render calls equals
the number of frame invocations. -/
theorem render_after_ticks_once_per_frame (us : List Nat) (t0 : ℚ) (ts : List ℚ) :
    (scheduleRun us t0 ts).events =
      ((deltasFrom ⟨false, 0⟩ ts).map (frameBlock us)).flatten
    ∧ (∀ d : ℚ, frameBlock us d =
        us.map (fun u => Event.tickCall u d) ++ [Event.renderCall]
        ∧ renderCount (us.map (fun u => Event.tickCall u d)) = 0
        ∧ renderCount (frameBlock us d) = 1)
    ∧ renderCount (scheduleRun us t0 ts).events = ts.length := by
  refine ⟨by rw [scheduleRun_eq],
    fun d => ⟨rfl, renderCount_tickList us d, renderCount_frameBlock us d⟩, ?_⟩
  rw [scheduleRun_eq]
  show renderCount ((deltasFrom ⟨false, 0⟩ ts).map (frameBlock us)).flatten = ts.length
  rw [renderCount_trace, deltasFrom_length]

/-- C2 counterexample: start called at wall-clock time 0 and the first
frame at wall-clock time 1.  The wall-clock time elapsed since start
is 1, but the delta handed to the tick in the first frame is 0: the
module clock only starts inside its first getDelta call, so the first
delta never reflects the time since start. -/
theorem first_frame_delta_is_zero :
    (run noFail initState [Op.register 0, Op.start 0, Op.frame 1]).events
      = [Event.tickCall 0 0, Event.renderCall]
    ∧ (1 : ℚ) - 0 ≠ 0 := by
  constructor
  · decide
  · norm_num

/-- C2 amended: with non-decreasing host frame times every delta
handed to the ticks is non-negative; the delta of every frame after
the first equals the wall-clock time elapsed since the previous frame
invocation (the successive difference of the frame times), and the
first frame receives delta 0 - not the time since start - because the
module clock starts lazily inside its first getDelta call. -/
theorem delta_nonneg_and_elapsed (us : List Nat) (t0 t : ℚ) (rest : List ℚ)
    (hmono : List.Chain (· ≤ ·) t rest) :
    (scheduleRun us t0 (t :: rest)).events
      = ((0 :: pairDeltas t rest).map (frameBlock us)).flatten
    ∧ ∀ d ∈ (0 :: pairDeltas t rest), 0 ≤ d := by
  constructor
  · rw [scheduleRun_eq]
    show ((deltasFrom ⟨false, 0⟩ (t :: rest)).map (frameBlock us)).flatten = _
    rw [deltasFrom_fresh]
  · intro d hd
    rcases List.mem_cons.mp hd with h1 | h2
    · subst h1
      exact le_refl 0
    · exact pairDeltas_nonneg rest t hmono d h2

/-- Witness for the amended C2: one updatable, start at time 0, frames
at times 1, 2 and 4. -/
theorem delta_nonneg_and_elapsed_witness :
    List.Chain (· ≤ ·) (1 : ℚ) [2, 4] ∧
      ((scheduleRun [0] 0 (1 :: [2, 4])).events
        = ((0 :: pairDeltas 1 [2, 4]).map (frameBlock [0])).flatten
      ∧ ∀ d ∈ (0 :: pairDeltas (1 : ℚ) [2, 4]), 0 ≤ d) :=
  have hch : List.Chain (· ≤ ·) (1 : ℚ) [2, 4] :=
    List.Chain.cons (by norm_num) (List.Chain.cons (by norm_num) List.Chain.nil)
  ⟨hch, delta_nonneg_and_elapsed [0] 0 1 [2, 4] hch⟩

lemma step_start_start (fails : Nat → Bool) (s : SysState) (ta tb : ℚ) :
    step fails (step fails s (Op.start ta)) (Op.start tb)
      = step fails s (Op.start ta) := by
  by_cases h : s.isAnimating
  · simp [step, h]
  · simp [step, h]

/-- C5: start is idempotent.  A second start on any state is a no-op:
setAnimationLoop re-installs the same callback and the renderer
animation driver arms no second frame request while already animating,
so the whole run with a double start equals the run with a single
start and every updatable is still ticked exactly once per frame.
Installing is a total operation, so it cannot throw. -/
theorem start_twice_single_callback (us : List Nat) (t0 t1 : ℚ) (ts : List ℚ)
    (hnd : us.Nodup) :
    (∀ (fails : Nat → Bool) (s : SysState) (ta tb : ℚ),
      step fails (step fails s (Op.start ta)) (Op.start tb)
        = step fails s (Op.start ta))
    ∧ run noFail initState
        (us.map Op.register ++ [Op.start t0, Op.start t1] ++ ts.map Op.frame)
        = scheduleRun us t0 ts
    ∧ ∀ u ∈ us,
        tickCount u (run noFail initState
          (us.map Op.register ++ [Op.start t0, Op.start t1]
            ++ ts.map Op.frame)).events = ts.length := by
  have hdouble : run noFail initState
      (us.map Op.register ++ [Op.start t0, Op.start t1] ++ ts.map Op.frame)
      = scheduleRun us t0 ts := by
    have h1 : run noFail initState
        (us.map Op.register ++ [Op.start t0, Op.start t1] ++ ts.map Op.frame)
        = run noFail (run noFail (run noFail initState (us.map Op.register))
            [Op.start t0, Op.start t1]) (ts.map Op.frame) := by
      rw [run_append, run_append]
    have h2 : run noFail (run noFail initState (us.map Op.register))
        [Op.start t0, Op.start t1]
        = run noFail (run noFail initState (us.map Op.register)) [Op.start t0] :=
      step_start_start noFail (run noFail initState (us.map Op.register)) t0 t1
    have h3 : scheduleRun us t0 ts
        = run noFail (run noFail (run noFail initState (us.map Op.register))
            [Op.start t0]) (ts.map Op.frame) := by
      unfold scheduleRun
      rw [run_append, run_append]
    rw [h1, h2, ← h3]
  refine ⟨step_start_start, hdouble, ?_⟩
  intro u hmem
  rw [hdouble, scheduleRun_eq]
  show tickCount u ((deltasFrom ⟨false, 0⟩ ts).map (frameBlock us)).flatten = ts.length
  rw [tickCount_trace u us _ hmem hnd, deltasFrom_length]

/-- Witness for C5: updatables 1 and 2, start called twice at times 0
and 0, two frames at times 3 and 5. -/
theorem start_twice_single_callback_witness :
    ([1, 2] : List Nat).Nodup ∧
      ((∀ (fails : Nat → Bool) (s : SysState) (ta tb : ℚ),
        step fails (step fails s (Op.start ta)) (Op.start tb)
          = step fails s (Op.start ta))
      ∧ run noFail initState
          ([1, 2].map Op.register ++ [Op.start 0, Op.start 0]
            ++ [(3 : ℚ), 5].map Op.frame)
          = scheduleRun [1, 2] 0 [3, 5]
      ∧ ∀ u ∈ ([1, 2] : List Nat),
          tickCount u (run noFail initState
            ([1, 2].map Op.register ++ [Op.start 0, Op.start 0]
              ++ [(3 : ℚ), 5].map Op.frame)).events = [(3 : ℚ), 5].length) :=
  ⟨by decide, start_twice_single_callback [1, 2] 0 0 [3, 5] (by decide)⟩

lemma run_frames_noRequest (fails : Nat → Bool) (ts : List ℚ) :
    ∀ s : SysState, s.hasRequest = false → run fails s (ts.map Op.frame) = s := by
  induction ts with
  | nil => intro s _; rfl
  | cons t ts ih =>
    intro s h
    have h1 : run fails s ((t :: ts).map Op.frame)
        = run fails (step fails s (Op.frame t)) (ts.map Op.frame) := rfl
    have h2 : step fails s (Op.frame t) = s := by simp [step, h]
    rw [h1, h2, ih s h]

/-- C6: after stop - which hands null to setAnimationLoop, cancelling
the pending frame request - any number of further host frames leaves
the state, and in particular the event trace, completely unchanged, so
no updatable receives any tick until start is called again; a second
stop is a no-op (stop is idempotent). -/
theorem stop_blocks_further_ticks (fails : Nat → Bool) (s : SysState)
    (ts : List ℚ) :
    run fails (step fails s Op.stop) (ts.map Op.frame) = step fails s Op.stop
    ∧ step fails (step fails s Op.stop) Op.stop = step fails s Op.stop := by
  constructor
  · exact run_frames_noRequest fails ts (step fails s Op.stop) rfl
  · simp [step]

lemma runTicks_failAt (fails : Nat → Bool) (post : List Nat) (f : Nat) (d : ℚ)
    (hf : fails f = true) :
    ∀ pre : List Nat, (∀ u ∈ pre, fails u = false) →
      runTicks fails (pre ++ f :: post) d =
        (pre.map (fun u => Event.tickCall u d) ++ [Event.tickCall f d], false) := by
  intro pre
  induction pre with
  | nil => intro _; simp [runTicks, hf]
  | cons v pre ih =>
    intro hpre
    have hv : fails v = false := hpre v (List.mem_cons_self v pre)
    have hrest : ∀ u ∈ pre, fails u = false :=
      fun u hu => hpre u (List.mem_cons_of_mem v hu)
    simp [runTicks, hv, ih hrest]

/-- C7: when the tick of updatable f raises while every updatable
registered before it succeeds, the events of that frame callback are
the ticks of the earlier updatables followed by the failing tick: the
updatables registered after f receive no tick, no render call is
issued, the callback does not return normally (the error propagates,
nothing in the core catches it), and the animation driver arms no
further frame request. -/
theorem tick_error_fail_fast (fails : Nat → Bool) (pre post : List Nat)
    (f : Nat) (c : ClockState) (now : ℚ)
    (hpre : ∀ u ∈ pre, fails u = false) (hf : fails f = true) :
    (frameCallback fails (pre ++ f :: post) c now).1
      = pre.map (fun u => Event.tickCall u (Clock.getDelta c now).1)
        ++ [Event.tickCall f (Clock.getDelta c now).1]
    ∧ (frameCallback fails (pre ++ f :: post) c now).2.2 = false
    ∧ renderCount (frameCallback fails (pre ++ f :: post) c now).1 = 0
    ∧ ∀ s : SysState, s.hasRequest = true → s.updatables = pre ++ f :: post →
        (step fails s (Op.frame now)).hasRequest = false := by
  have hrt := runTicks_failAt fails post f (Clock.getDelta c now).1 hf pre hpre
  have hfc : frameCallback fails (pre ++ f :: post) c now
      = (pre.map (fun u => Event.tickCall u (Clock.getDelta c now).1)
          ++ [Event.tickCall f (Clock.getDelta c now).1],
         (Clock.getDelta c now).2, false) := by
    simp [frameCallback, hrt]
  refine ⟨by rw [hfc], by rw [hfc], ?_, ?_⟩
  · rw [hfc]
    show renderCount (pre.map (fun u => Event.tickCall u (Clock.getDelta c now).1)
      ++ [Event.tickCall f (Clock.getDelta c now).1]) = 0
    rw [renderCount_append, renderCount_tickList]
    rfl
  · intro s h1 h2
    have hrt2 := runTicks_failAt fails post f (Clock.getDelta s.clock now).1 hf pre hpre
    simp [step, h1, h2, frameCallback, hrt2]

/-- The only failing updatable is the one with id 5. -/
def failsOnlyFive : Nat → Bool := fun u => u == 5

/-- Witness for C7: updatables 1 and 2 succeed, updatable 5 raises,
updatable 7 is registered after it; clock fresh, frame at time 3. -/
theorem tick_error_fail_fast_witness :
    (∀ u ∈ ([1, 2] : List Nat), failsOnlyFive u = false)
    ∧ failsOnlyFive 5 = true
    ∧ ((frameCallback failsOnlyFive ([1, 2] ++ 5 :: [7]) ⟨false, 0⟩ 3).1
        = [1, 2].map (fun u => Event.tickCall u (Clock.getDelta ⟨false, 0⟩ 3).1)
          ++ [Event.tickCall 5 (Clock.getDelta ⟨false, 0⟩ 3).1]
      ∧ (frameCallback failsOnlyFive ([1, 2] ++ 5 :: [7]) ⟨false, 0⟩ 3).2.2 = false
      ∧ renderCount (frameCallback failsOnlyFive ([1, 2] ++ 5 :: [7]) ⟨false, 0⟩ 3).1 = 0
      ∧ ∀ s : SysState, s.hasRequest = true → s.updatables = [1, 2] ++ 5 :: [7] →
          (step failsOnlyFive s (Op.frame 3)).hasRequest = false) :=
  ⟨by decide, by decide,
    tick_error_fail_fast failsOnlyFive [1, 2] [7] 5 ⟨false, 0⟩ 3 (by decide) (by decide)⟩

/-- C3: every execution of the synchronization pass - the pass the
Resizer constructor runs immediately and the pass the resize listener
runs on every host resize notification are the very same setSize -
establishes, within the one synchronous pass, camera.aspect equal to
clientWidth / clientHeight (with the projection matrix recomputed for
it), the renderer output size equal to the container dimensions, and
the renderer pixel ratio equal to the host device pixel ratio. -/
theorem setSize_synchronizes (container : Container) (cam : CameraState)
    (r : RendererState) (dpr : ℚ) :
    (Resizer.setSize container cam r dpr).1.aspect
        = container.clientWidth / container.clientHeight
    ∧ (Resizer.setSize container cam r dpr).1.projectionAspect
        = container.clientWidth / container.clientHeight
    ∧ (Resizer.setSize container cam r dpr).2.width = container.clientWidth
    ∧ (Resizer.setSize container cam r dpr).2.height = container.clientHeight
    ∧ (Resizer.setSize container cam r dpr).2.pixelRatio = dpr
    ∧ Resizer.construct container cam r dpr = Resizer.setSize container cam r dpr
    ∧ Resizer.handleResize container cam r dpr = Resizer.setSize container cam r dpr :=
  ⟨rfl, rfl, rfl, rfl, rfl, rfl, rfl⟩

/-- C8 counterexample: in the startup trace of main the single
target-copy event lies strictly before the event marking the
resolution of init, so the orbit target is not set at a point after
init() completes. -/
theorem target_set_not_after_init :
    mainTrace.count (MainEvent.setTarget heliPosition) = 1
    ∧ mainTrace.indexOf (MainEvent.setTarget heliPosition)
        < mainTrace.indexOf MainEvent.initEnd
    ∧ ¬ mainTrace.indexOf MainEvent.initEnd
        < mainTrace.indexOf (MainEvent.setTarget heliPosition) := by
  decide

/-- C8 amended: the orbit target is copied from the helicopter
position exactly once, inside init() - after init begins and before
init resolves - hence before the first start() call, and at the moment
start() is first invoked the orbit target equals the helicopter
position. -/
theorem target_set_once_inside_init :
    mainTrace.count (MainEvent.setTarget heliPosition) = 1
    ∧ mainTrace.indexOf MainEvent.initBegin
        < mainTrace.indexOf (MainEvent.setTarget heliPosition)
    ∧ mainTrace.indexOf (MainEvent.setTarget heliPosition)
        < mainTrace.indexOf MainEvent.initEnd
    ∧ mainTrace.indexOf (MainEvent.setTarget heliPosition)
        < mainTrace.indexOf MainEvent.startCall
    ∧ targetAtStart = heliPosition := by
  decide

/-- C9: the enableZoom field of the controlSettings argument has no
effect on the constructed controls: although enableZoom sits in the
merged defaults, createControls never assigns it, so the controls keep
the OrbitControls library default, and only enableDamping, autoRotate,
enabled and enablePan are taken from the merged settings. -/
theorem enableZoom_never_applied (cs : ControlSettings) (b : Option Bool) :
    (createControls cs).enableZoom = newOrbitControls.enableZoom
    ∧ createControls { cs with enableZoom := b } = createControls cs
    ∧ (createControls cs).enableDamping = (mergeControlSettings cs).enableDamping
    ∧ (createControls cs).autoRotate = (mergeControlSettings cs).autoRotate
    ∧ (createControls cs).enabled = (mergeControlSettings cs).enabled
    ∧ (createControls cs).enablePan = (mergeControlSettings cs).enablePan := by
  refine ⟨rfl, ?_, rfl, rfl, rfl, rfl⟩
  simp [createControls, mergeControlSettings]

/-- C10: the rotor tick is additive and linear in the delta: any
sequence of ticks advances the z rotation by degToRad(180) times the
sum of the deltas, and two successive ticks with deltas d1 and d2
yield the same rotation as one tick with delta d1 + d2. -/
theorem rotor_rotation_linear (rotZ d1 d2 : ℝ) (ds : List ℝ) :
    ds.foldl (fun r d => heliTick d r) rotZ = rotZ + radiansPerSecond * ds.sum
    ∧ heliTick d2 (heliTick d1 rotZ) = heliTick (d1 + d2) rotZ
    ∧ radiansPerSecond = degToRad 180 := by
  refine ⟨?_, by simp [heliTick]; ring, rfl⟩
  induction ds generalizing rotZ with
  | nil => simp
  | cons d ds ih =>
    rw [List.foldl_cons, ih]
    simp [heliTick, List.sum_cons]
    ring
